import Mathlib

/-!
Verification of the Z-Fusion launcher (a Pinokio app configuration).

The repository ships two near-duplicate menu definitions:
* `menuV1` embeds the `menu` function of `src/pinokio.js` (title "Z-Image Fusion");
* `menuV2` embeds the `menu` function of `src/unnamed/part_002` (title "Z-Fusion"),
  which additionally tracks a `quick_update.js` script.

It also ships two provisioning pipelines:
* `installRun` embeds the `run` list of `src/unnamed/part_000` (the install pipeline);
* `updateRun` embeds the `run` list of `src/unnamed/part_001` (the full-update pipeline).

The JS `Date.now()` clock is modelled by an explicit `now : Nat` parameter, and
the JS number-to-string coercion used in `"...?ts=" + Date.now()` by the decimal
printer `natRepr`.
-/

/-- The external facts both menu functions read: the environment marker
`info.exists("app/env")`, the running flag of each lifecycle script
(`info.running("install.js")` and so on), and the URL published by the start
script (`info.local("start.js")` with its `url` field), collapsed to an
`Option String` that is `none` when `local` is null or has no `url`. -/
structure InstallState where
  installed : Bool
  install : Bool
  start : Bool
  update : Bool
  quick_update : Bool
  reset : Bool
  url : Option String
deriving DecidableEq

/-- An entry of a nested `menu:` array in the source: icon, text and href only. -/
structure SubAction where
  icon : String
  text : String
  href : String
deriving DecidableEq

/-- A top-level menu action object of the source: optional `default` flag,
icon, text, and optionally an `href` target, a nested `menu` array, and a
`confirm` prompt. -/
structure MenuAction where
  default : Bool := false
  icon : String
  text : String
  href : Option String := none
  menu : Option (List SubAction) := none
  confirm : Option String := none
deriving DecidableEq

/-- Base-10 digits of `n`, least significant first, computed with explicit
fuel so that the kernel can evaluate it. -/
def toDigitsRev (fuel n : Nat) : List Nat :=
  match fuel with
  | 0 => []
  | f + 1 => if n = 0 then [] else n % 10 :: toDigitsRev f (n / 10)

/-- Decimal printer for the `Date.now()` value interpolated into hrefs,
modelling the JS number-to-string coercion. -/
def natRepr (n : Nat) : String :=
  if n = 0 then "0" else ⟨((toDigitsRev n n).map Nat.digitChar).reverse⟩

/-- The `menu` function of `src/pinokio.js` ("Z-Image Fusion", version 3.7).
It queries `install.js`, `start.js`, `update.js` and `reset.js` but not
`quick_update.js`. -/
def menuV1 (info : InstallState) (now : Nat) : List MenuAction :=
  if info.install then
    [{ default := true, icon := "fa-solid fa-plug", text := "Installing",
       href := some "install.js" }]
  else if info.installed then
    if info.start then
      match info.url with
      | some url =>
        [{ default := true, icon := "fa-solid fa-rocket", text := "Open Web UI",
           href := some url },
         { icon := "fa-solid fa-terminal", text := "Terminal",
           href := some "start.js" }]
      | none =>
        [{ default := true, icon := "fa-solid fa-terminal", text := "Terminal",
           href := some "start.js" }]
    else if info.update then
      [{ default := true, icon := "fa-solid fa-terminal", text := "Updating",
         href := some "update.js" }]
    else if info.reset then
      [{ default := true, icon := "fa-solid fa-terminal", text := "Resetting",
         href := some "reset.js" }]
    else
      [{ default := true, icon := "fa-solid fa-power-off", text := "Start",
         href := some ("start.js?ts=" ++ natRepr now) },
       { icon := "fa-solid fa-power-off", text := "Start -w Optimization flags",
         menu := some [
           { icon := "fa-solid fa-power-off",
             text := "<div><strong>Start</strong><br><div>+SageAttention2</div></div>",
             href := "start.js?sage=true&ts=" ++ natRepr now },
           { icon := "fa-solid fa-power-off",
             text := "<div><strong>Start</strong><br><div>+FlashAttention2</div></div>",
             href := "start.js?flash=true&ts=" ++ natRepr now }] },
       { icon := "fa-solid fa-plug", text := "Update", href := some "update.js" },
       { icon := "fa-solid fa-plug", text := "Install", href := some "install.js" },
       { icon := "fa-regular fa-circle-xmark", text := "Reset",
         href := some "reset.js",
         confirm := some "Are you sure you wish to reset the app?" }]
  else
    [{ default := true, icon := "fa-solid fa-plug", text := "Install",
       href := some "install.js" }]

/-- The `menu` function of `src/unnamed/part_002` ("Z-Fusion", version 3.7).
It additionally tracks `quick_update.js`, cache-busts the "Open Web UI" href,
and consolidates Quick/Full update into an "Update" submenu. -/
def menuV2 (info : InstallState) (now : Nat) : List MenuAction :=
  if info.install then
    [{ default := true, icon := "fa-solid fa-plug", text := "Installing",
       href := some "install.js" }]
  else if info.installed then
    if info.start then
      match info.url with
      | some url =>
        [{ default := true, icon := "fa-solid fa-rocket", text := "Open Web UI",
           href := some (url ++ "?ts=" ++ natRepr now) },
         { icon := "fa-solid fa-terminal", text := "Terminal",
           href := some "start.js" }]
      | none =>
        [{ default := true, icon := "fa-solid fa-terminal", text := "Terminal",
           href := some "start.js" }]
    else if info.update || info.quick_update then
      [{ default := true, icon := "fa-solid fa-terminal", text := "Updating",
         href := some (if info.update then "update.js" else "quick_update.js") }]
    else if info.reset then
      [{ default := true, icon := "fa-solid fa-terminal", text := "Resetting",
         href := some "reset.js" }]
    else
      [{ default := true, icon := "fa-solid fa-power-off", text := "Start",
         href := some ("start.js?ts=" ++ natRepr now) },
       { icon := "fa-solid fa-power-off", text := "Start -w Optimization flags",
         menu := some [
           { icon := "fa-solid fa-power-off",
             text := "<div><strong>Start</strong><br><div>+SageAttention2</div></div>",
             href := "start.js?sage=true&ts=" ++ natRepr now },
           { icon := "fa-solid fa-power-off",
             text := "<div><strong>Start</strong><br><div>+FlashAttention2</div></div>",
             href := "start.js?flash=true&ts=" ++ natRepr now }] },
       { icon := "fa-solid fa-plug", text := "Update",
         menu := some [
           { icon := "fa-solid fa-bolt", text := "Quick Update (Git Pull only)",
             href := "quick_update.js" },
           { icon := "fa-solid fa-plug", text := "Full Update (Everything)",
             href := "update.js" }] },
       { icon := "fa-solid fa-plug", text := "Install", href := some "install.js" },
       { icon := "fa-regular fa-circle-xmark", text := "Reset",
         href := some "reset.js",
         confirm := some "Are you sure you wish to reset the app?" }]
  else
    [{ default := true, icon := "fa-solid fa-plug", text := "Install",
       href := some "install.js" }]

/-- Whether the pattern is a prefix of the character list. -/
def listStartsWith : List Char → List Char → Bool
  | [], _ => true
  | _ :: _, [] => false
  | p :: ps, c :: cs => p == c && listStartsWith ps cs

/-- Whether the pattern is a suffix of the character list. -/
def listEndsWith (p l : List Char) : Bool :=
  listStartsWith p.reverse l.reverse

/-- Split a character list at the first occurrence of the separator,
returning the parts before and after it, or `none` if it does not occur. -/
def splitAtSep (sep : List Char) : List Char → Option (List Char × List Char)
  | [] => if listStartsWith sep [] then some ([], []) else none
  | c :: cs =>
    if listStartsWith sep (c :: cs) then some ([], (c :: cs).drop sep.length)
    else (splitAtSep sep cs).map fun p => (c :: p.1, p.2)

/-- A shell command of the pull-or-else-clone form used by the update
pipeline: `git -C <path> pull || git clone <url> <path>`. -/
def isPullOrElseClone (s : String) : Bool :=
  match splitAtSep " || ".data s.data with
  | some (a, b) =>
    listStartsWith "git -C ".data a && listEndsWith " pull".data a &&
      listStartsWith "git clone ".data b
  | none => false

/-- A plain unconditional clone command, `git clone <url> <path>`,
as used by the install pipeline. -/
def isPlainClone (s : String) : Bool :=
  listStartsWith "git clone ".data s.data

/-- The `script.start` parameters passed to the `torch.js` bootstrap. -/
structure TorchParams where
  venv : Option String := none
  path : Option String := none
  flashattention : Bool := false
  triton : Bool := false
  sageattention : Bool := false
deriving DecidableEq

/-- A provisioning-pipeline step as it appears in the `run` lists of the
install and update scripts: a `shell.run` stage, a delegated `script.start`
of `torch.js`, or an `fs.link` resource-linking stage. -/
inductive Step where
  | shellRun (venv path : Option String) (message : List String)
  | scriptStart (uri : String) (params : TorchParams)
  | fsLink (drive : List (String × String)) (peers : List String)
deriving DecidableEq

/-- The `run` list of `src/unnamed/part_000`: the install pipeline. -/
def installRun : List Step := [
  .shellRun none none [
    "git clone https://github.com/comfyanonymous/ComfyUI app/comfyui",
    "git clone https://github.com/ltdrdata/ComfyUI-Manager app/comfyui/custom_nodes/ComfyUI-Manager",
    "git clone https://github.com/city96/ComfyUI-GGUF app/comfyui/custom_nodes/ComfyUI-GGUF",
    "git clone https://github.com/numz/ComfyUI-SeedVR2_VideoUpscaler app/comfyui/custom_nodes/ComfyUI-SeedVR2_VideoUpscaler",
    "git clone https://github.com/Kosinkadink/ComfyUI-VideoHelperSuite.git app/comfyui/custom_nodes/ComfyUI-VideoHelperSuite",
    "git clone https://github.com/ChangeTheConstants/SeedVarianceEnhancer.git app/comfyui/custom_nodes/SeedVarianceEnhancer",
    "git clone https://github.com/demon4932/CameraPromptsGenerator.git app/CameraPromptsGenerator"],
  .shellRun (some "env") (some "app") [
    "uv pip install -r comfyui/requirements.txt",
    "uv pip install -r requirements.txt",
    "uv pip install gguf>=0.13.0 sentencepiece protobuf",
    "uv pip install einops omegaconf>=2.3.0 diffusers>=0.33.1 peft>=0.17.0 rotary_embedding_torch>=0.5.3 opencv-python matplotlib imageio-ffmpeg"],
  .scriptStart "torch.js"
    { venv := some "env", path := some "app",
      flashattention := true, triton := true, sageattention := true },
  .fsLink [
    ("checkpoints", "app/comfyui/models/checkpoints"),
    ("clip", "app/comfyui/models/clip"),
    ("clip_vision", "app/comfyui/models/clip_vision"),
    ("configs", "app/comfyui/models/configs"),
    ("controlnet", "app/comfyui/models/controlnet"),
    ("diffusers", "app/comfyui/models/diffusers"),
    ("diffusion_models", "app/comfyui/models/diffusion_models"),
    ("embeddings", "app/comfyui/models/embeddings"),
    ("gligen", "app/comfyui/models/gligen"),
    ("hypernetworks", "app/comfyui/models/hypernetworks"),
    ("ipadapter", "app/comfyui/models/ipadapter"),
    ("loras", "app/comfyui/models/loras"),
    ("photomaker", "app/comfyui/models/photomaker"),
    ("SEEDVR2", "app/comfyui/models/SEEDVR2"),
    ("model_patches", "app/comfyui/models/model_patches"),
    ("style_models", "app/comfyui/models/style_models"),
    ("text_encoders", "app/comfyui/models/text_encoders"),
    ("unet", "app/comfyui/models/unet"),
    ("upscale_models", "app/comfyui/models/upscale_models"),
    ("vae", "app/comfyui/models/vae"),
    ("vae_approx", "app/comfyui/models/VAE-approx"),
    ("output", "app/comfyui/output")]
    [ "https://github.com/cocktailpeanut/fluxgym.git",
      "https://github.com/cocktailpeanutlabs/automatic1111.git",
      "https://github.com/cocktailpeanutlabs/fooocus.git",
      "https://github.com/cocktailpeanutlabs/comfyui.git",
      "https://github.com/pinokiofactory/comfy.git",
      "https://github.com/pinokiofactory/stable-diffusion-webui-forge.git"]]

/-- The `run` list of `src/unnamed/part_001`: the full-update pipeline. -/
def updateRun : List Step := [
  .shellRun none none ["git pull"],
  .shellRun none (some "app") [
    "git -C comfyui pull || git clone https://github.com/comfyanonymous/ComfyUI.git comfyui",
    "git -C comfyui/custom_nodes/ComfyUI-Manager pull || git clone https://github.com/ltdrdata/ComfyUI-Manager.git comfyui/custom_nodes/ComfyUI-Manager",
    "git -C comfyui/custom_nodes/ComfyUI-GGUF pull || git clone https://github.com/city96/ComfyUI-GGUF.git comfyui/custom_nodes/ComfyUI-GGUF",
    "git -C comfyui/custom_nodes/ComfyUI-SeedVR2_VideoUpscaler pull || git clone https://github.com/SeedVR2/ComfyUI-SeedVR2_VideoUpscaler.git comfyui/custom_nodes/ComfyUI-SeedVR2_VideoUpscaler",
    "git -C comfyui/custom_nodes/ComfyUI-VideoHelperSuite pull || git clone https://github.com/Kosinkadink/ComfyUI-VideoHelperSuite.git comfyui/custom_nodes/ComfyUI-VideoHelperSuite",
    "git -C comfyui/custom_nodes/SeedVarianceEnhancer pull || git clone https://github.com/ChangeTheConstants/SeedVarianceEnhancer.git comfyui/custom_nodes/SeedVarianceEnhancer",
    "git -C CameraPromptsGenerator pull || git clone https://github.com/demon4932/CameraPromptsGenerator.git CameraPromptsGenerator"],
  .shellRun (some "env") (some "app") [
    "uv pip install -r comfyui/requirements.txt",
    "uv pip install -r requirements.txt",
    "uv pip install gguf>=0.13.0 sentencepiece protobuf",
    "uv pip install einops omegaconf>=2.3.0 diffusers>=0.33.1 peft>=0.17.0 rotary_embedding_torch>=0.5.3 opencv-python matplotlib imageio-ffmpeg"],
  .scriptStart "torch.js" { venv := some "env", path := some "app" }]

/-- The repository-management commands of the install pipeline for the
managed external repositories: the messages of its first `shell.run` step. -/
def installRepoCmds : List String :=
  match installRun with
  | .shellRun _ _ msgs :: _ => msgs
  | _ => []

/-- The repository-management commands of the update pipeline for the
managed external repositories: the messages of its second `shell.run` step
(the leading step is a plain `git pull` of the launcher repository itself). -/
def updateRepoCmds : List String :=
  match updateRun with
  | _ :: .shellRun _ _ msgs :: _ => msgs
  | _ => []

/-- Whether a pipeline step is a repository-management shell step all of
whose commands are of the pull-or-else-clone form. -/
def isRepoMgmtStep : Step → Bool
  | .shellRun _ _ msgs => msgs.all isPullOrElseClone
  | _ => false

/-- Whether a pipeline step is a dependency-install step: a `shell.run`
stage inside the isolated `env` environment whose commands are all
`uv pip install` invocations. -/
def isDepInstallStep : Step → Bool
  | .shellRun venv _ msgs =>
    venv == some "env" && !msgs.isEmpty &&
      msgs.all fun c => listStartsWith "uv pip install".data c.data
  | _ => false

/-- Whether a pipeline step is the delegated runtime bootstrap:
a `script.start` of `torch.js`. -/
def isBootstrapStep : Step → Bool
  | .scriptStart uri _ => uri == "torch.js"
  | _ => false

/-- The shape claimed for the full-update pipeline: some repository
pull-or-else-clone steps, then a single dependency-install step, then the
delegated runtime-bootstrap step, and nothing after it. -/
def updateRunDecomposition : Prop :=
  ∃ rs d b, updateRun = rs ++ [d, b] ∧
    (∀ st ∈ rs, isRepoMgmtStep st = true) ∧
    isDepInstallStep d = true ∧ isBootstrapStep b = true

/-- The number of actions marked `default` in a menu. -/
def defaultCount (l : List MenuAction) : Nat :=
  (l.filter fun a => a.default).length

/-- Little-endian base-10 digit list evaluation, the inverse of `toDigitsRev`. -/
def digitsVal (l : List Nat) : Nat :=
  l.foldr (fun d acc => d + 10 * acc) 0

/-- The numeric value of a decimal digit character. -/
def charDigit (c : Char) : Nat := c.toNat - 48

/-- Parse the decimal string produced by `natRepr` back to a number. -/
def strToNat (s : String) : Nat :=
  digitsVal ((s.data.map charDigit).reverse)

/-- Installed, `start.js` running, a URL published by the start process. -/
def sU : InstallState := ⟨true, false, true, false, false, false, some "http://localhost:7860"⟩

/-- Installed, with both `install.js` and `start.js` reported running and a URL published. -/
def sUI : InstallState := ⟨true, true, true, false, false, false, some "http://localhost:7860"⟩

/-- Installed and idle: no lifecycle script running, no URL. -/
def sIdle : InstallState := ⟨true, false, false, false, false, false, none⟩

/-- Installed, with both `update.js` and `quick_update.js` reported running. -/
def sBoth : InstallState := ⟨true, false, false, true, true, false, none⟩

/-- Not installed, `install.js` running together with every other script. -/
def sInstalling : InstallState := ⟨false, true, true, true, true, true, some "http://x"⟩

/-- Not installed, `install.js` idle, every other script reported running. -/
def sFresh : InstallState := ⟨false, false, true, true, true, true, some "http://x"⟩

theorem digitsVal_toDigitsRev : ∀ fuel n, n ≤ fuel → digitsVal (toDigitsRev fuel n) = n := by
  intro fuel
  induction fuel with
  | zero => intro n hn; interval_cases n; rfl
  | succ f ih =>
    intro n hn
    by_cases h : n = 0
    · subst h; rfl
    · have hdiv : n / 10 < n := Nat.div_lt_self (Nat.pos_of_ne_zero h) (by norm_num)
      have hle : n / 10 ≤ f := by omega
      simp only [toDigitsRev, h, if_false, digitsVal, List.foldr_cons]
      have := ih (n / 10) hle
      simp only [digitsVal] at this
      rw [this, Nat.mod_add_div]

theorem toDigitsRev_lt : ∀ fuel n, ∀ d ∈ toDigitsRev fuel n, d < 10 := by
  intro fuel
  induction fuel with
  | zero => intro n d hd; simp [toDigitsRev] at hd
  | succ f ih =>
    intro n d hd
    by_cases h : n = 0
    · simp [toDigitsRev, h] at hd
    · simp only [toDigitsRev, h, if_false, List.mem_cons] at hd
      rcases hd with hd | hd
      · subst hd; exact Nat.mod_lt _ (by norm_num)
      · exact ih (n / 10) d hd

theorem charDigit_digitChar (d : Nat) (h : d < 10) : charDigit (Nat.digitChar d) = d := by
  have : ∀ e, e < 10 → charDigit (Nat.digitChar e) = e := by decide
  exact this d h

theorem strToNat_natRepr (n : Nat) : strToNat (natRepr n) = n := by
  by_cases h : n = 0
  · subst h; rfl
  · simp only [natRepr, h, if_false, strToNat]
    show digitsVal (((((toDigitsRev n n).map Nat.digitChar).reverse).map charDigit).reverse) = n
    rw [List.map_reverse, List.reverse_reverse, List.map_map]
    have h1 : List.map (charDigit ∘ Nat.digitChar) (toDigitsRev n n)
        = List.map id (toDigitsRev n n) :=
      List.map_congr_left fun d hd => charDigit_digitChar d (toDigitsRev_lt n n d hd)
    rw [h1, List.map_id]
    exact digitsVal_toDigitsRev n n le_rfl

theorem natRepr_injective : Function.Injective natRepr :=
  Function.LeftInverse.injective strToNat_natRepr

theorem string_append_cancel_left {s t u : String} (h : s ++ t = s ++ u) : t = u := by
  have hd : (s ++ t).data = (s ++ u).data := congrArg String.data h
  rw [String.data_append, String.data_append] at hd
  have hdata := List.append_cancel_left hd
  cases t
  cases u
  exact congrArg String.mk hdata

theorem ts_target_ne (url : String) {n₁ n₂ : Nat} (h : n₁ ≠ n₂) :
    url ++ "?ts=" ++ natRepr n₁ ≠ url ++ "?ts=" ++ natRepr n₂ := by
  intro heq
  exact h (natRepr_injective (string_append_cancel_left heq))

/-- C6: for every state with `running.install == true`, regardless of the
`installed` flag and of every other running flag, both menu variants return
exactly one action: the default "Installing" progress indicator pointing at
the install script. -/
theorem installing_single_action (s : InstallState) (now : Nat) (h : s.install = true) :
    menuV1 s now = [{ default := true, icon := "fa-solid fa-plug", text := "Installing",
                      href := some "install.js" }] ∧
    menuV2 s now = [{ default := true, icon := "fa-solid fa-plug", text := "Installing",
                      href := some "install.js" }] := by
  constructor <;> simp [menuV1, menuV2, h]

/-- C6 witness: the "Installing" action at a state where every other flag is set. -/
theorem installing_single_action_witness :
    menuV1 sInstalling 0 = [{ default := true, icon := "fa-solid fa-plug", text := "Installing",
                              href := some "install.js" }] ∧
    menuV2 sInstalling 0 = [{ default := true, icon := "fa-solid fa-plug", text := "Installing",
                              href := some "install.js" }] :=
  installing_single_action sInstalling 0 rfl

/-- C7: for every state with `installed == false` and `running.install == false`,
both menu variants return exactly one action, the default "Install", regardless
of the start, update, quick-update and reset flags. -/
theorem not_installed_single_action (s : InstallState) (now : Nat)
    (h1 : s.installed = false) (h2 : s.install = false) :
    menuV1 s now = [{ default := true, icon := "fa-solid fa-plug", text := "Install",
                      href := some "install.js" }] ∧
    menuV2 s now = [{ default := true, icon := "fa-solid fa-plug", text := "Install",
                      href := some "install.js" }] := by
  constructor <;> simp [menuV1, menuV2, h1, h2]

/-- C7 witness: the "Install" action at a state where start, update, quick-update
and reset are all reported running. -/
theorem not_installed_single_action_witness :
    menuV1 sFresh 0 = [{ default := true, icon := "fa-solid fa-plug", text := "Install",
                         href := some "install.js" }] ∧
    menuV2 sFresh 0 = [{ default := true, icon := "fa-solid fa-plug", text := "Install",
                         href := some "install.js" }] :=
  not_installed_single_action sFresh 0 rfl rfl

/-- C9: for every combination of the installed flag, the running flags and the
presence of a published start URL, both menu variants return a non-empty list. -/
theorem menu_nonempty (s : InstallState) (now : Nat) :
    menuV1 s now ≠ [] ∧ menuV2 s now ≠ [] := by
  obtain ⟨i, a, b, c, d, e, u⟩ := s
  cases i <;> cases a <;> cases b <;> cases c <;> cases d <;> cases e <;> cases u <;>
    simp [menuV1, menuV2]

/-- C10: the first menu variant (`src/pinokio.js`) never queries the
quick-update running flag, so its output is unchanged when only that flag
differs. -/
theorem v1_independent_of_quick_update (s : InstallState) (b : Bool) (now : Nat) :
    menuV1 { s with quick_update := b } now = menuV1 s now := by
  obtain ⟨i, a, c, d, e, f, u⟩ := s
  rfl

/-- C5: for every input state, each menu variant returns at most one action
marked default, and whenever `installed == true` it returns exactly one. -/
theorem unique_default (s : InstallState) (now : Nat) :
    defaultCount (menuV1 s now) ≤ 1 ∧ defaultCount (menuV2 s now) ≤ 1 ∧
    (s.installed = true →
      defaultCount (menuV1 s now) = 1 ∧ defaultCount (menuV2 s now) = 1) := by
  obtain ⟨i, a, b, c, d, e, u⟩ := s
  cases i <;> cases a <;> cases b <;> cases c <;> cases d <;> cases e <;> cases u <;>
    simp [menuV1, menuV2, defaultCount, List.filter]

/-- C5 witness: exactly one default action on the installed-and-idle state. -/
theorem unique_default_witness :
    defaultCount (menuV1 sIdle 0) ≤ 1 ∧ defaultCount (menuV2 sIdle 0) ≤ 1 ∧
    defaultCount (menuV1 sIdle 0) = 1 ∧ defaultCount (menuV2 sIdle 0) = 1 :=
  ⟨(unique_default sIdle 0).1, (unique_default sIdle 0).2.1,
   ((unique_default sIdle 0).2.2 rfl).1, ((unique_default sIdle 0).2.2 rfl).2⟩

/-- C4: with `installed == true`, install and start idle, and both
`running.update` and `running.quickUpdate` set simultaneously, the second menu
variant returns the single deterministic "Updating" action targeting the full
update script (`update.js` takes precedence over `quick_update.js`). -/
theorem contradictory_update_flags (s : InstallState) (now : Nat)
    (hi : s.installed = true) (hni : s.install = false) (hns : s.start = false)
    (hu : s.update = true) (hq : s.quick_update = true) :
    menuV2 s now = [{ default := true, icon := "fa-solid fa-terminal", text := "Updating",
                      href := some "update.js" }] := by
  simp [menuV2, hi, hni, hns, hu]

/-- C4 witness: the "Updating" action at the state with both update flags set. -/
theorem contradictory_update_flags_witness :
    menuV2 sBoth 0 = [{ default := true, icon := "fa-solid fa-terminal", text := "Updating",
                        href := some "update.js" }] :=
  contradictory_update_flags sBoth 0 rfl rfl rfl rfl rfl

/-- C1 counterexample: in the first variant (`src/pinokio.js`) the "Open Web UI"
target carries no cache-busting token — two evaluations at different clock
values produce identical target strings, equal to the bare published URL; and
in the second variant a state that also has `running.install` set yields the
"Installing" action instead of the claimed two-action list. -/
theorem start_menu_cachebust_counterexample :
    (menuV1 sU 0).map MenuAction.href = (menuV1 sU 1).map MenuAction.href ∧
    (menuV1 sU 0).map MenuAction.href = [some "http://localhost:7860", some "start.js"] ∧
    menuV2 sUI 0 = [{ default := true, icon := "fa-solid fa-plug", text := "Installing",
                      href := some "install.js" }] := by
  decide

/-- C1 amended: in the second variant (`src/unnamed/part_002`), for every state
with `installed == true`, `running.install == false` and `running.start == true`:
with a published URL the menu is exactly the default "Open Web UI" action whose
target is the URL with the cache-busting `?ts=` token (so different clock values
give non-identical targets) followed by the secondary "Terminal" action, and with
no URL it is only the (default) "Terminal" action. In the first variant
(`src/pinokio.js`) the "Open Web UI" target is the bare published URL. -/
theorem start_menu_amended (s : InstallState) (n₁ n₂ : Nat)
    (hi : s.installed = true) (hni : s.install = false) (hs : s.start = true) :
    (∀ url, s.url = some url →
      menuV2 s n₁ = [{ default := true, icon := "fa-solid fa-rocket", text := "Open Web UI",
                       href := some (url ++ "?ts=" ++ natRepr n₁) },
                     { icon := "fa-solid fa-terminal", text := "Terminal",
                       href := some "start.js" }] ∧
      (n₁ ≠ n₂ → url ++ "?ts=" ++ natRepr n₁ ≠ url ++ "?ts=" ++ natRepr n₂) ∧
      menuV1 s n₁ = [{ default := true, icon := "fa-solid fa-rocket", text := "Open Web UI",
                       href := some url },
                     { icon := "fa-solid fa-terminal", text := "Terminal",
                       href := some "start.js" }]) ∧
    (s.url = none →
      menuV2 s n₁ = [{ default := true, icon := "fa-solid fa-terminal", text := "Terminal",
                       href := some "start.js" }] ∧
      menuV1 s n₁ = [{ default := true, icon := "fa-solid fa-terminal", text := "Terminal",
                       href := some "start.js" }]) := by
  constructor
  · intro url hurl
    refine ⟨?_, fun hne => ts_target_ne url hne, ?_⟩ <;>
      simp [menuV1, menuV2, hi, hni, hs, hurl]
  · intro hurl
    constructor <;> simp [menuV1, menuV2, hi, hni, hs, hurl]

/-- C1 amended witness: the two-action list, the distinct targets at clocks 0
and 1, and the bare-URL target of the first variant, at a concrete state. -/
theorem start_menu_amended_witness :
    menuV2 sU 0 = [{ default := true, icon := "fa-solid fa-rocket", text := "Open Web UI",
                     href := some ("http://localhost:7860" ++ "?ts=" ++ natRepr 0) },
                   { icon := "fa-solid fa-terminal", text := "Terminal",
                     href := some "start.js" }] ∧
    "http://localhost:7860" ++ "?ts=" ++ natRepr 0 ≠
      "http://localhost:7860" ++ "?ts=" ++ natRepr 1 ∧
    menuV1 sU 0 = [{ default := true, icon := "fa-solid fa-rocket", text := "Open Web UI",
                     href := some "http://localhost:7860" },
                   { icon := "fa-solid fa-terminal", text := "Terminal",
                     href := some "start.js" }] := by
  have h := (start_menu_amended sU 0 1 rfl rfl rfl).1 "http://localhost:7860" rfl
  exact ⟨h.1, h.2.1 (by decide), h.2.2⟩

/-- C3 counterexample: on the installed-and-idle state the first variant
(`src/pinokio.js`) returns five actions, but its third action is a plain
"Update" action targeting `update.js` directly — it has no submenu, so no
Quick Update / Full Update choice exists anywhere in the list (only the
start-flags entry carries a submenu). -/
theorem idle_menu_counterexample :
    sIdle.installed = true ∧
    (menuV1 sIdle 0).length = 5 ∧
    (menuV1 sIdle 0)[2]? = some { icon := "fa-solid fa-plug", text := "Update",
                                  href := some "update.js" } ∧
    (menuV1 sIdle 0).map MenuAction.menu =
      [none,
       some [{ icon := "fa-solid fa-power-off",
               text := "<div><strong>Start</strong><br><div>+SageAttention2</div></div>",
               href := "start.js?sage=true&ts=0" },
             { icon := "fa-solid fa-power-off",
               text := "<div><strong>Start</strong><br><div>+FlashAttention2</div></div>",
               href := "start.js?flash=true&ts=0" }],
       none, none, none] := by
  decide

/-- C3 amended: on every installed state with no lifecycle script running, the
second variant (`src/unnamed/part_002`) returns exactly the claimed ordered
five-action list — default "Start", the "Start -w Optimization flags" submenu,
the "Update" submenu offering Quick Update and Full Update, "Install", and the
confirmation-gated "Reset" — while in the first variant (`src/pinokio.js`) the
third entry is instead a plain "Update" action targeting `update.js`. -/
theorem idle_menu_amended (s : InstallState) (now : Nat)
    (hi : s.installed = true) (h1 : s.install = false) (h2 : s.start = false)
    (h3 : s.update = false) (h4 : s.quick_update = false) (h5 : s.reset = false) :
    menuV2 s now =
      [{ default := true, icon := "fa-solid fa-power-off", text := "Start",
         href := some ("start.js?ts=" ++ natRepr now) },
       { icon := "fa-solid fa-power-off", text := "Start -w Optimization flags",
         menu := some [
           { icon := "fa-solid fa-power-off",
             text := "<div><strong>Start</strong><br><div>+SageAttention2</div></div>",
             href := "start.js?sage=true&ts=" ++ natRepr now },
           { icon := "fa-solid fa-power-off",
             text := "<div><strong>Start</strong><br><div>+FlashAttention2</div></div>",
             href := "start.js?flash=true&ts=" ++ natRepr now }] },
       { icon := "fa-solid fa-plug", text := "Update",
         menu := some [
           { icon := "fa-solid fa-bolt", text := "Quick Update (Git Pull only)",
             href := "quick_update.js" },
           { icon := "fa-solid fa-plug", text := "Full Update (Everything)",
             href := "update.js" }] },
       { icon := "fa-solid fa-plug", text := "Install", href := some "install.js" },
       { icon := "fa-regular fa-circle-xmark", text := "Reset", href := some "reset.js",
         confirm := some "Are you sure you wish to reset the app?" }] ∧
    menuV1 s now =
      [{ default := true, icon := "fa-solid fa-power-off", text := "Start",
         href := some ("start.js?ts=" ++ natRepr now) },
       { icon := "fa-solid fa-power-off", text := "Start -w Optimization flags",
         menu := some [
           { icon := "fa-solid fa-power-off",
             text := "<div><strong>Start</strong><br><div>+SageAttention2</div></div>",
             href := "start.js?sage=true&ts=" ++ natRepr now },
           { icon := "fa-solid fa-power-off",
             text := "<div><strong>Start</strong><br><div>+FlashAttention2</div></div>",
             href := "start.js?flash=true&ts=" ++ natRepr now }] },
       { icon := "fa-solid fa-plug", text := "Update", href := some "update.js" },
       { icon := "fa-solid fa-plug", text := "Install", href := some "install.js" },
       { icon := "fa-regular fa-circle-xmark", text := "Reset", href := some "reset.js",
         confirm := some "Are you sure you wish to reset the app?" }] := by
  constructor <;> simp [menuV1, menuV2, hi, h1, h2, h3, h4, h5]

/-- C3 amended witness: both idle menus at the concrete idle state and clock 0. -/
theorem idle_menu_amended_witness :
    menuV2 sIdle 0 =
      [{ default := true, icon := "fa-solid fa-power-off", text := "Start",
         href := some ("start.js?ts=" ++ natRepr 0) },
       { icon := "fa-solid fa-power-off", text := "Start -w Optimization flags",
         menu := some [
           { icon := "fa-solid fa-power-off",
             text := "<div><strong>Start</strong><br><div>+SageAttention2</div></div>",
             href := "start.js?sage=true&ts=" ++ natRepr 0 },
           { icon := "fa-solid fa-power-off",
             text := "<div><strong>Start</strong><br><div>+FlashAttention2</div></div>",
             href := "start.js?flash=true&ts=" ++ natRepr 0 }] },
       { icon := "fa-solid fa-plug", text := "Update",
         menu := some [
           { icon := "fa-solid fa-bolt", text := "Quick Update (Git Pull only)",
             href := "quick_update.js" },
           { icon := "fa-solid fa-plug", text := "Full Update (Everything)",
             href := "update.js" }] },
       { icon := "fa-solid fa-plug", text := "Install", href := some "install.js" },
       { icon := "fa-regular fa-circle-xmark", text := "Reset", href := some "reset.js",
         confirm := some "Are you sure you wish to reset the app?" }] ∧
    menuV1 sIdle 0 =
      [{ default := true, icon := "fa-solid fa-power-off", text := "Start",
         href := some ("start.js?ts=" ++ natRepr 0) },
       { icon := "fa-solid fa-power-off", text := "Start -w Optimization flags",
         menu := some [
           { icon := "fa-solid fa-power-off",
             text := "<div><strong>Start</strong><br><div>+SageAttention2</div></div>",
             href := "start.js?sage=true&ts=" ++ natRepr 0 },
           { icon := "fa-solid fa-power-off",
             text := "<div><strong>Start</strong><br><div>+FlashAttention2</div></div>",
             href := "start.js?flash=true&ts=" ++ natRepr 0 }] },
       { icon := "fa-solid fa-plug", text := "Update", href := some "update.js" },
       { icon := "fa-solid fa-plug", text := "Install", href := some "install.js" },
       { icon := "fa-regular fa-circle-xmark", text := "Reset", href := some "reset.js",
         confirm := some "Are you sure you wish to reset the app?" }] :=
  idle_menu_amended sIdle 0 rfl rfl rfl rfl rfl rfl

/-- C2 counterexample: not every repository-management command for the managed
external repositories is of the pull-or-else-clone form — the install
pipeline's very first command is a plain unconditional clone of the main
application with no pull attempt. -/
theorem clone_or_pull_uniform_counterexample :
    ((installRepoCmds ++ updateRepoCmds).all isPullOrElseClone) = false ∧
    installRepoCmds[0]? = some "git clone https://github.com/comfyanonymous/ComfyUI app/comfyui" ∧
    isPullOrElseClone "git clone https://github.com/comfyanonymous/ComfyUI app/comfyui" = false := by
  decide

set_option maxRecDepth 10000 in
/-- C2 amended: only the update pipeline applies the pull-or-else-clone form
to every one of its seven managed external repositories; the install pipeline
instead issues a plain unconditional `git clone` for each of its seven, with
no pull attempt and no fallback. -/
theorem clone_or_pull_amended :
    (updateRepoCmds.all isPullOrElseClone) = true ∧ updateRepoCmds.length = 7 ∧
    (installRepoCmds.all isPlainClone) = true ∧ installRepoCmds.length = 7 ∧
    (installRepoCmds.any isPullOrElseClone) = false := by
  decide

/-- C8 counterexample: the full-update pipeline is not exactly repository
pull-or-else-clone steps followed by the dependency-install step and the
bootstrap step — its first step is a plain `git pull` of the launcher's own
repository, which is not a pull-or-else-clone command. -/
theorem update_pipeline_shape_counterexample : ¬ updateRunDecomposition := by
  rintro ⟨rs, d, b, heq, hrepo, hdep, hboot⟩
  have hlen : (4 : Nat) = rs.length + 2 := by
    have h := congrArg List.length heq
    simpa [updateRun] using h
  have h2 : rs.length = 2 := by omega
  obtain ⟨a₁, a₂, rfl⟩ := List.length_eq_two.mp h2
  simp only [updateRun, List.cons_append, List.nil_append, List.cons.injEq,
    and_true] at heq
  obtain ⟨h₁, -, -, -⟩ := heq
  have hr := hrepo a₁ (List.mem_cons_self _ _)
  rw [← h₁] at hr
  exact absurd hr (by decide)

set_option maxRecDepth 10000 in
/-- C8 amended: the full-update pipeline consists, in strict order, of a plain
`git pull` of the launcher's own repository (not a pull-or-else-clone command),
then one shell step of pull-or-else-clone commands for the managed
repositories, then a single dependency-install step that installs the
requirement sets in a fixed order inside the isolated `env` environment, then
the delegated `torch.js` runtime-bootstrap step — and nothing after it. -/
theorem update_pipeline_shape_amended :
    updateRun.length = 4 ∧
    updateRun[0]? = some (.shellRun none none ["git pull"]) ∧
    isPullOrElseClone "git pull" = false ∧
    (updateRun[1]?.map isRepoMgmtStep) = some true ∧
    updateRun[2]? = some (.shellRun (some "env") (some "app") [
      "uv pip install -r comfyui/requirements.txt",
      "uv pip install -r requirements.txt",
      "uv pip install gguf>=0.13.0 sentencepiece protobuf",
      "uv pip install einops omegaconf>=2.3.0 diffusers>=0.33.1 peft>=0.17.0 rotary_embedding_torch>=0.5.3 opencv-python matplotlib imageio-ffmpeg"]) ∧
    (updateRun[2]?.map isDepInstallStep) = some true ∧
    (updateRun[3]?.map isBootstrapStep) = some true := by
  decide

/-- C9 witness: both menus are non-empty at the idle state. -/
theorem menu_nonempty_witness : menuV1 sIdle 0 ≠ [] ∧ menuV2 sIdle 0 ≠ [] :=
  menu_nonempty sIdle 0

/-- C10 witness: flipping only the quick-update flag leaves the first
variant's menu unchanged at a concrete state. -/
theorem v1_independent_of_quick_update_witness :
    menuV1 { sIdle with quick_update := true } 0 = menuV1 sIdle 0 :=
  v1_independent_of_quick_update sIdle true 0
